import Mathlib

/-
  Verification of the logging/error-reporting core in src/err.c
  (forked-daapd).  The C file's globals become the fields of `ErrState`,
  sink writes become an explicit event trace, and process termination
  becomes the `LogOutcome.exited` constructor.  Each definition below is a
  shallow embedding of the correspondingly named C function.
-/

namespace Daapd

/-- Modelled from the spec: err.h is not under src/.  Section 6 of the spec
defines the destination set as combinable bitflags for console, file and
system-log output; nothing below depends on more than the three flags being
distinct single bits. -/
def LOGDEST_STDERR : Nat := 1

/-- Modelled from the spec: err.h is not under src/; the system-log
destination bitflag (distinct bit). -/
def LOGDEST_SYSLOG : Nat := 2

/-- Modelled from the spec: err.h is not under src/; the log-file
destination bitflag (distinct bit). -/
def LOGDEST_LOGFILE : Nat := 4

/-- Modelled from the spec: err.h is not under src/.  Severity 1 is the
always-logged error level (spec section 6: "1 = error (always logged)"). -/
def E_LOG : Int := 1

/-- Modelled from the spec: err.h is not under src/.  Informational
severity used by err_setdebugmask's success message. -/
def E_INF : Int := 5

/-- Modelled from the spec: err.h is not under src/.  The most verbose
defined severity; the 10-entry lvl2syslog table in err.c fixes the ceiling
at 9 (spec section 6: "values above a fixed ceiling are clamped"). -/
def E_DBG : Int := 9

/-- Modelled from the spec: err.h is not under src/.  The reserved
always-on category bit (bit 31), matching the `0x80000000` literal that
err.c line 404 itself writes with the comment "always log L_MISC!". -/
def L_MISC : Nat := 0x80000000

/-- Standard syslog.h priority (system header, not repository code). -/
def LOG_ALERT : Nat := 1

/-- Standard syslog.h priority. -/
def LOG_NOTICE : Nat := 5

/-- Standard syslog.h priority. -/
def LOG_INFO : Nat := 6

/-- Standard syslog.h priority. -/
def LOG_DEBUG : Nat := 7

/-- Modelled from the spec: TRUE comes from a header not under src/;
the usual value 1, returned by the configuration accessors on success. -/
def TRUE : Int := 1

/-- Modelled from the spec: FALSE comes from a header not under src/;
the usual value 0, returned by the configuration accessors on failure. -/
def FALSE : Int := 0

/-- stdlib EXIT_FAILURE (system header), the status passed to exit() by a
non-recursive fatal log call (err.c line 280). -/
def EXIT_FAILURE : Int := 1

/-- POSIX PATH_MAX as used for the err_filename buffer. -/
def PATH_MAX : Nat := 4096

/-- A file's contents, modelled as the sequence of chunks written to it
since it was last created or truncated. -/
abbrev FileData := List String

/-- Association-list update (insert or replace, preserving order). -/
def setAssoc : List (String × FileData) → String → FileData → List (String × FileData)
  | [], p, c => [(p, c)]
  | (q, d) :: rest, p, c =>
      if q = p then (p, c) :: rest else (q, d) :: setAssoc rest p c

/-- Association-list lookup. -/
def lookupAssoc : List (String × FileData) → String → Option FileData
  | [], _ => none
  | (q, d) :: rest, p => if q = p then some d else lookupAssoc rest p

/-- The file system visible to err.c: named files with their contents, and
the set of paths on which fopen fails (permission errors etc.). -/
structure FS where
  files : List (String × FileData)
  badPaths : List String
deriving DecidableEq

/-- Contents of a file, if it exists. -/
def fsLookup (fs : FS) (p : String) : Option FileData :=
  lookupAssoc fs.files p

/-- Create or overwrite a file's contents. -/
def fsSet (fs : FS) (p : String) (c : FileData) : FS :=
  { fs with files := setAssoc fs.files p c }

/-- fopen.  Mode "w" truncates (or creates) the file, mode "a" opens for
append, creating the file when absent.  The returned handle is the open
path; `none` is a NULL FILE*. -/
def fopen (fs : FS) (p : String) (mode : String) : FS × Option String :=
  if p ∈ fs.badPaths then (fs, none)
  else if mode = "w" then (fsSet fs p [], some p)
  else
    match fsLookup fs p with
    | some _ => (fs, some p)
    | none => (fsSet fs p [], some p)

/-- Append a list of written chunks to an open file. -/
def fsAppendList (fs : FS) (p : String) (lines : List String) : FS :=
  if lines = [] then fs
  else
    match fsLookup fs p with
    | some c => fsSet fs p (c ++ lines)
    | none => fsSet fs p lines

/-- The globals of err.c (lines 63 to 80) together with the file system.
`err_file` is the open log FILE*: the path it was opened on, or `none` for
NULL.  `err_threadlist` is the chain hanging off the static head node, most
recently added thread first. -/
structure ErrState where
  err_debuglevel : Int
  err_logdest : Nat
  err_filename : String
  err_file : Option String
  err_debugmask : Nat
  err_truncate : Int
  err_syslog_open : Bool
  err_threadlist : List Nat
  fs : FS
deriving DecidableEq

/-- The initial values of the err.c globals at process start. -/
def errInit : ErrState :=
  { err_debuglevel := 0
    err_logdest := 0
    err_filename := ""
    err_file := none
    err_debugmask := 0xFFFFFFFF
    err_truncate := 0
    err_syslog_open := false
    err_threadlist := []
    fs := { files := [], badPaths := [] } }

/-- One observable sink action performed by the logging core. -/
inductive Event where
  | openlogCall : Event
  | syslogWrite (prio : Nat) (msg : String) : Event
  | fileWrite (msg : String) : Event
  | stderrWrite (msg : String) : Event
deriving DecidableEq

/-- Whether an event is a system-log write. -/
def Event.isSyslogWrite : Event → Bool
  | .syslogWrite _ _ => true
  | _ => false

/-- Whether an event is a log-file write. -/
def Event.isFileWrite : Event → Bool
  | .fileWrite _ => true
  | _ => false

/-- Whether an event is a console (stderr) write. -/
def Event.isStderrWrite : Event → Bool
  | .stderrWrite _ => true
  | _ => false

/-- How a call into the core ends: a normal return, or process termination
via exit() with the given status.  Either way the final global state is
carried along. -/
inductive LogOutcome where
  | ret (s : ErrState) : LogOutcome
  | exited (code : Int) (s : ErrState) : LogOutcome
deriving DecidableEq

/-- The global state at the end of the call, whichever way it ended. -/
def LogOutcome.state : LogOutcome → ErrState
  | .ret s => s
  | .exited _ s => s

/-- The severity-to-syslog-priority table lvl2syslog (err.c lines 82-88). -/
def lvl2syslogTbl : List Nat :=
  [LOG_ALERT, LOG_ALERT,
   LOG_NOTICE, LOG_NOTICE, LOG_NOTICE,
   LOG_INFO, LOG_INFO, LOG_INFO, LOG_INFO,
   LOG_DEBUG]

/-- Table lookup lvl2syslog[level]; only reached for 0 <= level <= E_DBG. -/
def lvl2syslog (level : Int) : Nat :=
  lvl2syslogTbl.getD level.toNat LOG_ALERT

/-- Lowercase hexadecimal rendering of the thread id, as printed by the
"%08x" conversion in the file-sink fprintf (err.c line 263). -/
def hex8 (n : Nat) : String :=
  let ds := Nat.toDigits 16 (n % 2 ^ 32)
  String.mk (List.replicate (8 - ds.length) '0' ++ ds)

/-- The line the file sink writes for one message: timestamp, thread id in
hex, then the formatted message (err.c line 263). -/
def fileLogLine (now : String) (tid : Nat) (msg : String) : String :=
  now ++ " (" ++ hex8 tid ++ "): " ++ msg

/-- The filter stage of err_log (err.c lines 216-222): severities 0 and 1
always pass; severity above 1 passes only when it is within the current
debug level and its category intersects the current debug mask. -/
def shouldLog (level : Int) (cat : Nat) (dbglevel : Int) (mask : Nat) : Bool :=
  if level > 1 then
    if level > dbglevel then false
    else if cat &&& mask = 0 then false
    else true
  else true

/-- err_log (err.c lines 207-282).  `tid` is the caller's thread id
(__err_get_threadid), `now` the formatted local time placed in timebuf,
`msg` the vsnprintf-formatted message.  Returns the trace of sink events
and the outcome.  The C control flow, in order: the filter stage; the
reentrancy check under m_errlist (early return for a recursive non-fatal
call, syslog_only for a recursive fatal one); __err_thread_add; the
system-log sink for level <= 1 with lazy openlog; the recursive-fatal
exit(-1) after an "Aborting" to stderr; the file sink (skipped when
syslog_only); the console sink (forced for fatals, with the "Aborting"
trailer); __err_thread_del; and exit(EXIT_FAILURE) for fatals. -/
def err_log (tid : Nat) (now : String) (level : Int) (cat : Nat) (msg : String)
    (s : ErrState) : List Event × LogOutcome :=
  if shouldLog level cat s.err_debuglevel s.err_debugmask = false then ([], .ret s)
  else if tid ∈ s.err_threadlist ∧ level ≠ 0 then ([], .ret s)
  else
    let tl1 : List Nat := tid :: s.err_threadlist
    let evSys : List Event :=
      if level ≤ 1 then
        (if s.err_syslog_open then [] else [.openlogCall]) ++
          [.syslogWrite (if level > E_DBG then LOG_DEBUG else lvl2syslog level) msg]
      else []
    let sysOpen1 : Bool := if level ≤ 1 then true else s.err_syslog_open
    if tid ∈ s.err_threadlist ∧ level = 0 then
      (evSys ++ [.stderrWrite "Aborting\n"],
       .exited (-1) { s with err_threadlist := tl1, err_syslog_open := sysOpen1 })
    else
      let fileLines : List String :=
        if (s.err_logdest &&& LOGDEST_LOGFILE ≠ 0 ∧ s.err_file.isSome)
            ∧ ¬(tid ∈ s.err_threadlist ∧ level = 0) then
          fileLogLine now tid msg ::
            (if level = 0 then [now ++ ": Aborting\n"] else [])
        else []
      let evCon : List Event :=
        if s.err_logdest &&& LOGDEST_STDERR ≠ 0 ∨ level = 0 then
          .stderrWrite msg :: (if level = 0 then [.stderrWrite "Aborting\n"] else [])
        else []
      let fs1 : FS :=
        match s.err_file with
        | some p => fsAppendList s.fs p fileLines
        | none => s.fs
      let sOut : ErrState :=
        { s with err_threadlist := tl1.erase tid
                 err_syslog_open := sysOpen1
                 fs := fs1 }
      let ev := evSys ++ fileLines.map Event.fileWrite ++ evCon
      if level = 0 then (ev, .exited EXIT_FAILURE sOut) else (ev, .ret sOut)

/-- err_setdest (err.c lines 377-390).  Early return when the destination
is unchanged; when the file destination was active and no longer is,
fclose(err_file) is called — closing has no effect on file contents, and,
exactly as in the source, the err_file field itself is not cleared. -/
def err_setdest (destination : Nat) (s : ErrState) : ErrState :=
  if s.err_logdest = destination then s
  else { s with err_logdest := destination }

/-- err_setlogfile (err.c lines 337-369).  Closes any open handle, picks
mode "w" or "a" from the truncate flag, copies the name (strncpy bounded by
PATH_MAX) and attempts the open.  On failure: an error line to stderr, the
file-destination bit is cleared, and the error is also sent to syslog after
a lazy openlog. -/
def err_setlogfile (file : String) (s : ErrState) : List Event × Int × ErrState :=
  let mode : String := if s.err_truncate ≠ 0 then "w" else "a"
  let s1 := { s with err_filename := String.mk (file.data.take PATH_MAX) }
  let res := fopen s1.fs s1.err_filename mode
  let s2 := { s1 with fs := res.1, err_file := res.2 }
  match res.2 with
  | some _ => ([], TRUE, s2)
  | none =>
      let evOpen : List Event := if s2.err_syslog_open then [] else [.openlogCall]
      let s3 := { s2 with
                    err_logdest := s2.err_logdest &&& (0xFFFFFFFF ^^^ LOGDEST_LOGFILE)
                    err_syslog_open := true }
      (Event.stderrWrite "Error opening logfile" :: evOpen ++
         [.syslogWrite (lvl2syslog 1) "Error opening logfile"],
       FALSE, s3)

/-- err_settruncate (err.c lines 321-335).  No-op when the flag already has
the requested value; otherwise stores it and, when turning truncation on
with a file already open, re-runs err_setlogfile on the current name.
Returns TRUE on every path. -/
def err_settruncate (tr : Int) (s : ErrState) : List Event × Int × ErrState :=
  if s.err_truncate = tr then ([], TRUE, s)
  else
    let s1 := { s with err_truncate := tr }
    if tr ≠ 0 ∧ s1.err_file.isSome then
      let r := err_setlogfile s1.err_filename s1
      (r.1, TRUE, r.2.2)
    else ([], TRUE, s1)

/-- err_reopen (err.c lines 176-195).  Nothing to do unless the file
destination is active.  Closes the handle and reopens the same path —
always with mode "w" — then reports through the normal dispatch path:
on failure the file bit is dropped and the syslog bit raised before the
report; on success a "Rotated logs" message is dispatched. -/
def err_reopen (tid : Nat) (now : String) (s : ErrState) : List Event × ErrState :=
  if s.err_logdest &&& LOGDEST_LOGFILE = 0 then ([], s)
  else
    let res := fopen s.fs s.err_filename "w"
    let s1 := { s with fs := res.1, err_file := res.2 }
    match res.2 with
    | none =>
        let s2 := err_setdest (s1.err_logdest &&& (0xFFFFFFFF ^^^ LOGDEST_LOGFILE)) s1
        let s3 := err_setdest (s2.err_logdest ||| LOGDEST_SYSLOG) s2
        let r := err_log tid now E_LOG L_MISC "Could not rotate log file\n" s3
        (r.1, r.2.state)
    | some _ =>
        let r := err_log tid now E_LOG L_MISC "Rotated logs\n" s1
        (r.1, r.2.state)

/-- The category vocabulary err_categorylist (err.c lines 72-75). -/
def err_categorylist : List String :=
  ["config", "webserver", "database", "scan", "query", "index", "browse",
   "playlist", "art", "daap", "main", "rend", "xml", "parse", "plugin",
   "lock", "httpd", "rsp", "xcode"]

/-- ASCII tolower on one character, as strcasecmp applies per byte. -/
def lowerChar (c : Char) : Char :=
  if 'A' ≤ c ∧ c ≤ 'Z' then Char.ofNat (c.toNat + 32) else c

/-- Case-insensitive token match, as strcasecmp compares in the parser
loop (err.c line 418). -/
def catMatches (token : String) (entry : String) : Bool :=
  entry.data.map lowerChar = token.data.map lowerChar

/-- Position of a token in the category vocabulary, if any. -/
def findCategory (token : String) : Option Nat :=
  err_categorylist.findIdx? (catMatches token)

/-- strtok_r tokenisation on ',': split on commas, dropping empty tokens,
exactly the sequence of non-NULL strtok_r results in the parsing loop. -/
def splitTokens : List Char → List Char → List String
  | [], acc => if acc = [] then [] else [String.mk acc.reverse]
  | c :: cs, acc =>
      if c = ',' then
        (if acc = [] then [] else [String.mk acc.reverse]) ++ splitTokens cs []
      else splitTokens cs (c :: acc)

/-- The token list strtok_r produces for the whole input. -/
def strtokList (list : String) : List String :=
  splitTokens list.data []

/-- The per-token loop of err_setdebugmask (err.c lines 410-432): each
recognised token ORs its bit (rack, 1 shifted by the table index) into
err_debugmask, which has already been reset; the first unknown token
aborts with return value 1 after reporting through DPRINTF(E_LOG,...);
token exhaustion reports the final mask through DPRINTF(E_INF,...) and
returns 0. -/
def err_setdebugmask_go (tid : Nat) (now : String) :
    List String → ErrState → List Event × Int × ErrState
  | [], s =>
      let r := err_log tid now E_INF L_MISC
        ("Debug mask is 0x" ++ hex8 s.err_debugmask ++ "\n") s
      (r.1, 0, r.2.state)
  | t :: ts, s =>
      match findCategory t with
      | some i =>
          err_setdebugmask_go tid now ts
            { s with err_debugmask := s.err_debugmask ||| (1 <<< i) }
      | none =>
          let r := err_log tid now E_LOG L_MISC ("Unknown module: " ++ t ++ "\n") s
          (r.1, 1, r.2.state)

/-- err_setdebugmask (err.c lines 398-439).  The mask is reset to the
always-on bit 0x80000000 before any token is examined, then the loop above
runs over the strtok_r tokens. -/
def err_setdebugmask (tid : Nat) (now : String) (list : String) (s : ErrState) :
    List Event × Int × ErrState :=
  err_setdebugmask_go tid now (strtokList list)
    { s with err_debugmask := 0x80000000 }

/-
  Theorems.
-/

theorem shouldLog_fatal (cat : Nat) (d : Int) (m : Nat) : shouldLog 0 cat d m = true := by
  unfold shouldLog
  rw [if_neg (by omega)]

theorem shouldLog_one (cat : Nat) (d : Int) (m : Nat) : shouldLog 1 cat d m = true := by
  unfold shouldLog
  rw [if_neg (by omega)]

/-- C4: the filter stage of err_log accepts every message of severity 0 or
1 regardless of the current debug level and category mask, and for
severity at least 2 it accepts a message iff the severity is at most the
current debug level and the message's category mask intersects the current
category mask. -/
theorem shouldLog_filter_spec (level : Int) (cat : Nat) (d : Int) (m : Nat) :
    ((level = 0 ∨ level = 1) → shouldLog level cat d m = true) ∧
    (2 ≤ level → (shouldLog level cat d m = true ↔ (level ≤ d ∧ cat &&& m ≠ 0))) := by
  constructor
  · intro h
    unfold shouldLog
    rw [if_neg (by omega)]
  · intro h2
    unfold shouldLog
    rw [if_pos (by omega)]
    constructor
    · intro hT
      by_cases hd : level > d
      · rw [if_pos hd] at hT
        exact absurd hT (by simp)
      · rw [if_neg hd] at hT
        by_cases hm : cat &&& m = 0
        · rw [if_pos hm] at hT
          exact absurd hT (by simp)
        · exact ⟨by omega, hm⟩
    · rintro ⟨hd, hm⟩
      rw [if_neg (by omega), if_neg hm]

/-- Witness for C4 at severity 1 and at severity 2 with level 5, mask 1. -/
theorem shouldLog_filter_spec_witness :
    shouldLog 1 0 0 0 = true ∧
    (shouldLog 2 1 5 1 = true ↔ ((2:Int) ≤ 5 ∧ 1 &&& 1 ≠ 0)) :=
  ⟨(shouldLog_filter_spec 1 0 0 0).1 (Or.inr rfl),
   (shouldLog_filter_spec 2 1 5 1).2 (by norm_num)⟩

/-- C2: a call to err_log with non-fatal severity from a thread already in
the thread registry returns with no sink events and the state completely
unchanged (the deadlock-avoidance short-circuit at err.c lines 226-232). -/
theorem err_log_recursive_nonfatal_no_effects (tid : Nat) (now : String) (level : Int)
    (cat : Nat) (msg : String) (s : ErrState)
    (hmem : tid ∈ s.err_threadlist) (hlv : 1 ≤ level) :
    err_log tid now level cat msg s = ([], .ret s) := by
  unfold err_log
  by_cases h1 : shouldLog level cat s.err_debuglevel s.err_debugmask = false
  · rw [if_pos h1]
  · rw [if_neg h1, if_pos ⟨hmem, by omega⟩]

/-- Witness for C2: a registered thread logging at severity 1. -/
theorem err_log_recursive_nonfatal_no_effects_witness :
    err_log 5 "t" 1 0 "m" { errInit with err_threadlist := [5] }
      = ([], .ret { errInit with err_threadlist := [5] }) :=
  err_log_recursive_nonfatal_no_effects 5 "t" 1 0 "m"
    { errInit with err_threadlist := [5] } (by decide) (by norm_num)

/-- C10: err_settruncate returns TRUE on every path, and when the
requested value equals the stored flag it returns immediately with no
events and no state change (err.c lines 321-335). -/
theorem err_settruncate_spec (tr : Int) (s : ErrState) :
    (err_settruncate tr s).2.1 = TRUE ∧
    (s.err_truncate = tr → err_settruncate tr s = ([], TRUE, s)) := by
  simp only [err_settruncate]
  split_ifs with h1 h2
  · exact ⟨rfl, fun _ => rfl⟩
  · exact ⟨rfl, fun hc => absurd hc h1⟩
  · exact ⟨rfl, fun hc => absurd hc h1⟩

/-- Witness for C10: requesting the value already stored. -/
theorem err_settruncate_spec_witness :
    (err_settruncate 0 errInit).2.1 = TRUE ∧
    err_settruncate 0 errInit = ([], TRUE, errInit) :=
  ⟨(err_settruncate_spec 0 errInit).1, (err_settruncate_spec 0 errInit).2 rfl⟩

/-- C7 counterexample: with the file destination active and a file open,
err_setdest 0 clears the destination bits but the handle field keeps its
previous non-null value (err.c lines 382-388 call fclose without nulling
err_file), so the handle is not null afterward and the claimed iff
invariant fails. -/
theorem err_setdest_disable_keeps_handle :
    (err_setdest 0 { errInit with
        err_logdest := LOGDEST_LOGFILE
        err_file := some "log"
        fs := { files := [("log", [])], badPaths := [] } }).err_file = some "log" ∧
    (err_setdest 0 { errInit with
        err_logdest := LOGDEST_LOGFILE
        err_file := some "log"
        fs := { files := [("log", [])], badPaths := [] } }).err_logdest
        &&& LOGDEST_LOGFILE = 0 := by
  constructor
  · decide
  · decide

/-- C7 amended: err_setdest installs the requested destination set but
never modifies the file handle field, so disabling the file destination
while it is active closes the stream yet leaves the stored handle
non-null, and the handle/destination iff invariant does not hold. -/
theorem err_setdest_never_clears_handle (destination : Nat) (s : ErrState) :
    (err_setdest destination s).err_file = s.err_file ∧
    (err_setdest destination s).err_logdest = destination := by
  unfold err_setdest
  split_ifs with h
  · exact ⟨rfl, h⟩
  · exact ⟨rfl, rfl⟩

/-- C5 counterexample: starting from the default mask 0xFFFFFFFF, parsing
"config,bogus" reports failure (returns 1) but leaves the category mask
holding exactly the always-on bit plus the bit of the token that preceded
the unknown one — the partial state the claim says must not remain. -/
theorem err_setdebugmask_partial_state :
    (err_setdebugmask 1 "t" "config,bogus" errInit).2.1 = 1 ∧
    (err_setdebugmask 1 "t" "config,bogus" errInit).2.2.err_debugmask = 0x80000001 ∧
    (err_setdebugmask 1 "t" "config,bogus" errInit).2.2.err_debugmask
      ≠ errInit.err_debugmask := by
  refine ⟨by decide, by decide, by decide⟩

theorem err_log_rejected (tid : Nat) (now : String) (level : Int) (cat : Nat)
    (msg : String) (s : ErrState)
    (hS : shouldLog level cat s.err_debuglevel s.err_debugmask = false) :
    err_log tid now level cat msg s = ([], .ret s) := by
  unfold err_log
  rw [if_pos hS]

theorem err_log_skip (tid : Nat) (now : String) (level : Int) (cat : Nat)
    (msg : String) (s : ErrState)
    (hm : tid ∈ s.err_threadlist) (hz : level ≠ 0) :
    err_log tid now level cat msg s = ([], .ret s) := by
  unfold err_log
  by_cases hS : shouldLog level cat s.err_debuglevel s.err_debugmask = false
  · rw [if_pos hS]
  · rw [if_neg hS, if_pos ⟨hm, hz⟩]

theorem err_log_recursive_fatal_eq (tid : Nat) (now : String) (cat : Nat)
    (msg : String) (s : ErrState) (hm : tid ∈ s.err_threadlist) :
    err_log tid now 0 cat msg s =
      ((if s.err_syslog_open then [] else [Event.openlogCall]) ++
         [Event.syslogWrite LOG_ALERT msg, Event.stderrWrite "Aborting\n"],
       .exited (-1) { s with err_threadlist := tid :: s.err_threadlist
                             err_syslog_open := true }) := by
  simp [err_log, shouldLog_fatal, hm, lvl2syslog, lvl2syslogTbl, E_DBG]

theorem err_log_top_outcome (tid : Nat) (now : String) (level : Int) (cat : Nat)
    (msg : String) (s : ErrState) (hm : tid ∉ s.err_threadlist)
    (hS : shouldLog level cat s.err_debuglevel s.err_debugmask = true) :
    ∃ so fs1, (err_log tid now level cat msg s).2 =
      if level = 0 then
        LogOutcome.exited EXIT_FAILURE { s with err_syslog_open := so, fs := fs1 }
      else
        LogOutcome.ret { s with err_syslog_open := so, fs := fs1 } := by
  refine ⟨(if level ≤ 1 then true else s.err_syslog_open), ?_, ?_⟩
  · exact (match s.err_file with
           | some p => fsAppendList s.fs p
               (if (s.err_logdest &&& LOGDEST_LOGFILE ≠ 0 ∧ s.err_file.isSome)
                   ∧ ¬(tid ∈ s.err_threadlist ∧ level = 0) then
                  fileLogLine now tid msg ::
                    (if level = 0 then [now ++ ": Aborting\n"] else [])
                else [])
           | none => s.fs)
  · simp [err_log, hS, hm, List.erase_cons_head]
    split <;> rfl

theorem err_log_outcome_ret (tid : Nat) (now : String) (level : Int) (cat : Nat)
    (msg : String) (s : ErrState) :
    ∀ s', (err_log tid now level cat msg s).2 = .ret s' →
      s'.err_threadlist = s.err_threadlist := by
  intro s' h
  by_cases hS : shouldLog level cat s.err_debuglevel s.err_debugmask = false
  · rw [err_log_rejected tid now level cat msg s hS] at h
    cases h
    rfl
  · rw [Bool.not_eq_false] at hS
    by_cases hm : tid ∈ s.err_threadlist
    · by_cases hz : level = 0
      · subst hz
        rw [err_log_recursive_fatal_eq tid now cat msg s hm] at h
        simp at h
      · rw [err_log_skip tid now level cat msg s hm hz] at h
        cases h
        rfl
    · obtain ⟨so, fs1, hout⟩ := err_log_top_outcome tid now level cat msg s hm hS
      rw [hout] at h
      by_cases hz : level = 0
      · rw [if_pos hz] at h
        simp at h
      · rw [if_neg hz] at h
        cases h
        rfl

theorem err_log_outcome_exit (tid : Nat) (now : String) (level : Int) (cat : Nat)
    (msg : String) (s : ErrState) :
    ∀ c s', (err_log tid now level cat msg s).2 = .exited c s' →
      s'.err_threadlist = s.err_threadlist ∨
        (tid ∈ s.err_threadlist ∧ level = 0 ∧
          s'.err_threadlist = tid :: s.err_threadlist) := by
  intro c s' h
  by_cases hS : shouldLog level cat s.err_debuglevel s.err_debugmask = false
  · rw [err_log_rejected tid now level cat msg s hS] at h
    simp at h
  · rw [Bool.not_eq_false] at hS
    by_cases hm : tid ∈ s.err_threadlist
    · by_cases hz : level = 0
      · subst hz
        rw [err_log_recursive_fatal_eq tid now cat msg s hm] at h
        simp only [LogOutcome.exited.injEq] at h
        right
        rw [← h.2]
        exact ⟨hm, rfl, rfl⟩
      · rw [err_log_skip tid now level cat msg s hm hz] at h
        simp at h
    · obtain ⟨so, fs1, hout⟩ := err_log_top_outcome tid now level cat msg s hm hS
      rw [hout] at h
      by_cases hz : level = 0
      · rw [if_pos hz] at h
        simp only [LogOutcome.exited.injEq] at h
        left
        rw [← h.2]
      · rw [if_neg hz] at h
        simp at h

/-- C1 counterexample: a recursive fatal call (thread 7 already in the
registry) does attempt a console write — the "Aborting" trailer goes to
stderr (err.c line 250) before exit(-1) — contradicting "no console write
is attempted on that path". -/
theorem err_log_recursive_fatal_writes_stderr :
    Event.stderrWrite "Aborting\n" ∈ (err_log 7 "t" 0 0 "boom"
      { errInit with err_threadlist := [7] }).1 := by decide

/-- C1 amended: a recursive fatal call sends the message to the system-log
sink exactly once and terminates the process via exit(-1); no file write
is attempted and the message itself is never written to the console — the
only console output is the fixed "Aborting" trailer printed just before
termination. -/
theorem err_log_recursive_fatal_syslog_once (tid : Nat) (now : String) (cat : Nat)
    (msg : String) (s : ErrState) (hm : tid ∈ s.err_threadlist) :
    ((err_log tid now 0 cat msg s).1.filter Event.isSyslogWrite
        = [.syslogWrite LOG_ALERT msg]) ∧
    ((err_log tid now 0 cat msg s).1.filter Event.isFileWrite = []) ∧
    ((err_log tid now 0 cat msg s).1.filter Event.isStderrWrite
        = [.stderrWrite "Aborting\n"]) ∧
    ∃ s', (err_log tid now 0 cat msg s).2 = .exited (-1) s' := by
  have heq := err_log_recursive_fatal_eq tid now cat msg s hm
  refine ⟨?_, ?_, ?_, ?_⟩
  · rw [heq]
    by_cases hso : s.err_syslog_open <;>
      simp [hso, Event.isSyslogWrite, Event.isFileWrite, Event.isStderrWrite,
            List.filter]
  · rw [heq]
    by_cases hso : s.err_syslog_open <;>
      simp [hso, Event.isSyslogWrite, Event.isFileWrite, Event.isStderrWrite,
            List.filter]
  · rw [heq]
    by_cases hso : s.err_syslog_open <;>
      simp [hso, Event.isSyslogWrite, Event.isFileWrite, Event.isStderrWrite,
            List.filter]
  · rw [heq]
    exact ⟨_, rfl⟩

/-- Witness for C1 at a concretely registered thread. -/
theorem err_log_recursive_fatal_syslog_once_witness :
    (((err_log 11 "t" 0 3 "m" { errInit with err_threadlist := [11] }).1.filter
        Event.isSyslogWrite) = [.syslogWrite LOG_ALERT "m"]) ∧
    (((err_log 11 "t" 0 3 "m" { errInit with err_threadlist := [11] }).1.filter
        Event.isFileWrite) = []) ∧
    (((err_log 11 "t" 0 3 "m" { errInit with err_threadlist := [11] }).1.filter
        Event.isStderrWrite) = [.stderrWrite "Aborting\n"]) ∧
    ∃ s', (err_log 11 "t" 0 3 "m" { errInit with err_threadlist := [11] }).2
        = .exited (-1) s' :=
  err_log_recursive_fatal_syslog_once 11 "t" 3 "m"
    { errInit with err_threadlist := [11] } (by decide)

/-- C3 counterexample: on the recursive fatal path the thread is added a
second time at entry (err.c line 234) and the process exits at line 251
without any removal, so at termination the registry holds [9, 9] instead
of the entry state [9] — the addition is not matched by a removal before
termination. -/
theorem err_log_recursive_fatal_registry_leak :
    ((err_log 9 "t" 0 0 "x" { errInit with err_threadlist := [9] }).2.state.err_threadlist
        = [9, 9]) ∧
    ((err_log 9 "t" 0 0 "x" { errInit with err_threadlist := [9] }).2.state.err_threadlist
        ≠ ({ errInit with err_threadlist := [9] } : ErrState).err_threadlist) := by
  refine ⟨by decide, by decide⟩

/-- C3 amended: on every path on which err_log returns, and on the fatal
termination path of a non-recursive call, each addition of the calling
thread is matched by exactly one removal (the registry is restored to its
entry value, hence empty after a rejected top-level call from an empty
registry); only the recursive-fatal termination path exits with the entry
still registered. -/
theorem err_log_registry_balanced (tid : Nat) (now : String) (level : Int) (cat : Nat)
    (msg : String) (s : ErrState) :
    (∀ s', (err_log tid now level cat msg s).2 = .ret s' →
        s'.err_threadlist = s.err_threadlist) ∧
    (tid ∉ s.err_threadlist →
      ∀ c s', (err_log tid now level cat msg s).2 = .exited c s' →
        s'.err_threadlist = s.err_threadlist) := by
  refine ⟨err_log_outcome_ret tid now level cat msg s, fun htid c s' h => ?_⟩
  rcases err_log_outcome_exit tid now level cat msg s c s' h with h1 | ⟨hmem, _, _⟩
  · exact h1
  · exact absurd hmem htid

/-- Witness for C3: a rejected call (severity 2 against debug level 0)
and a non-recursive fatal call, both from the initial state. -/
theorem err_log_registry_balanced_witness :
    errInit.err_threadlist = errInit.err_threadlist ∧
    ErrState.err_threadlist { errInit with err_syslog_open := true }
      = errInit.err_threadlist := by
  constructor
  · exact (err_log_registry_balanced 4 "t" 2 0 "m" errInit).1 errInit (by decide)
  · exact (err_log_registry_balanced 6 "t" 0 0 "m" errInit).2 (by decide) EXIT_FAILURE
      { errInit with err_syslog_open := true } (by decide)

/-- C8: a non-recursive fatal call writes the message and then the
"Aborting" trailer to the console even when the console destination bit is
not set, and the call never returns: it ends in exit(EXIT_FAILURE), a
non-zero failure status. -/
theorem err_log_fatal_console_and_exit (tid : Nat) (now : String) (cat : Nat)
    (msg : String) (s : ErrState) (hm : tid ∉ s.err_threadlist) :
    ((err_log tid now 0 cat msg s).1.filter Event.isStderrWrite
        = [.stderrWrite msg, .stderrWrite "Aborting\n"]) ∧
    (∃ s', (err_log tid now 0 cat msg s).2 = .exited EXIT_FAILURE s') ∧
    EXIT_FAILURE ≠ 0 := by
  refine ⟨?_, ?_, by norm_num [EXIT_FAILURE]⟩
  · by_cases hso : s.err_syslog_open <;>
    by_cases hfile : s.err_logdest &&& LOGDEST_LOGFILE ≠ 0 ∧ s.err_file.isSome <;>
    by_cases hcon : s.err_logdest &&& LOGDEST_STDERR ≠ 0 <;>
      simp [err_log, shouldLog_fatal, hm, hso, hfile, hcon, Event.isStderrWrite,
            List.filter, lvl2syslog, lvl2syslogTbl, E_DBG]
  · obtain ⟨so, fs1, hout⟩ :=
      err_log_top_outcome tid now 0 cat msg s hm (shouldLog_fatal cat _ _)
    rw [hout, if_pos rfl]
    exact ⟨_, rfl⟩

/-- Witness for C8: a fatal call from the initial state, console
destination bit clear. -/
theorem err_log_fatal_console_and_exit_witness :
    (((err_log 2 "t" 0 0 "boom" errInit).1.filter Event.isStderrWrite)
        = [.stderrWrite "boom", .stderrWrite "Aborting\n"]) ∧
    (∃ s', (err_log 2 "t" 0 0 "boom" errInit).2 = .exited EXIT_FAILURE s') ∧
    EXIT_FAILURE ≠ 0 :=
  err_log_fatal_console_and_exit 2 "t" 0 "boom" errInit (by decide)

/-- C9 counterexample: a recursive fatal call from a registry holding
thread 3 exits with the registry holding [3, 3] — the same thread
identifier appears twice at the moment of termination. -/
theorem err_log_recursive_fatal_duplicate_id :
    ¬ List.Nodup ((err_log 3 "t" 0 5 "x"
        { errInit with err_threadlist := [3] }).2.state.err_threadlist) := by decide

/-- C9 amended: starting from a duplicate-free registry, every path on
which err_log returns leaves the registry duplicate-free (it is restored,
so membership lasts only for the one dispatch call); at process
termination the registry is either restored (non-recursive fatal) or — on
the recursive fatal path only — holds one extra copy of the calling
thread's identifier. -/
theorem err_log_registry_nodup (tid : Nat) (now : String) (level : Int) (cat : Nat)
    (msg : String) (s : ErrState) (hnd : s.err_threadlist.Nodup) :
    (∀ s', (err_log tid now level cat msg s).2 = .ret s' →
        s'.err_threadlist.Nodup) ∧
    (∀ c s', (err_log tid now level cat msg s).2 = .exited c s' →
        s'.err_threadlist = s.err_threadlist ∨
          (tid ∈ s.err_threadlist ∧
            s'.err_threadlist = tid :: s.err_threadlist)) := by
  constructor
  · intro s' h
    rw [err_log_outcome_ret tid now level cat msg s s' h]
    exact hnd
  · intro c s' h
    rcases err_log_outcome_exit tid now level cat msg s c s' h with h1 | ⟨hmem, _, hdup⟩
    · exact Or.inl h1
    · exact Or.inr ⟨hmem, hdup⟩

/-- Witness for C9: a severity-1 call and a fatal call from the initial
(empty, duplicate-free) registry. -/
theorem err_log_registry_nodup_witness :
    List.Nodup (ErrState.err_threadlist { errInit with err_syslog_open := true }) ∧
    (ErrState.err_threadlist { errInit with err_syslog_open := true }
        = errInit.err_threadlist ∨
      (8 ∈ errInit.err_threadlist ∧
        ErrState.err_threadlist { errInit with err_syslog_open := true }
          = 8 :: errInit.err_threadlist)) := by
  constructor
  · exact (err_log_registry_nodup 4 "t" 1 0 "m" errInit (by decide)).1
      { errInit with err_syslog_open := true } (by decide)
  · exact (err_log_registry_nodup 8 "t" 0 0 "m" errInit (by decide)).2 EXIT_FAILURE
      { errInit with err_syslog_open := true } (by decide)

theorem err_log_state_debugmask (tid : Nat) (now : String) (level : Int) (cat : Nat)
    (msg : String) (s : ErrState) :
    ((err_log tid now level cat msg s).2.state).err_debugmask = s.err_debugmask := by
  by_cases hS : shouldLog level cat s.err_debuglevel s.err_debugmask = false
  · rw [err_log_rejected tid now level cat msg s hS]
    rfl
  · rw [Bool.not_eq_false] at hS
    by_cases hm : tid ∈ s.err_threadlist
    · by_cases hz : level = 0
      · subst hz
        rw [err_log_recursive_fatal_eq tid now cat msg s hm]
        rfl
      · rw [err_log_skip tid now level cat msg s hm hz]
        rfl
    · obtain ⟨so, fs1, hout⟩ := err_log_top_outcome tid now level cat msg s hm hS
      rw [hout]
      split <;> rfl

theorem setdebugmask_go_unknown (tid : Nat) (now : String) (bad : String)
    (rest : List String) (hbad : findCategory bad = none) :
    ∀ (pre : List String) (s : ErrState), (∀ t ∈ pre, (findCategory t).isSome) →
      (err_setdebugmask_go tid now (pre ++ bad :: rest) s).2.1 = 1 ∧
      (err_setdebugmask_go tid now (pre ++ bad :: rest) s).2.2.err_debugmask =
        pre.foldl (fun m t => m ||| (1 <<< (findCategory t).getD 0)) s.err_debugmask := by
  intro pre
  induction pre with
  | nil =>
      intro s _
      constructor
      · simp [err_setdebugmask_go, hbad]
      · simp [err_setdebugmask_go, hbad, err_log_state_debugmask]
  | cons t ts ih =>
      intro s hpre
      obtain ⟨i, hi⟩ := Option.isSome_iff_exists.mp (hpre t (List.mem_cons_self t ts))
      have hrest := ih { s with err_debugmask := s.err_debugmask ||| (1 <<< i) }
        (fun u hu => hpre u (List.mem_cons_of_mem t hu))
      constructor
      · simpa [err_setdebugmask_go, hi] using hrest.1
      · simp only [List.cons_append, err_setdebugmask_go, hi, List.foldl_cons,
          Option.getD_some]
        simpa [hi] using hrest.2

/-- C5 amended: err_setdebugmask on a list whose first unrecognized token
is preceded only by recognized tokens reports failure (returns 1), but the
category mask is left holding exactly the always-on bit 0x80000000 OR-ed
with the bits of the tokens that preceded the unknown token — the prior
mask is overwritten, not preserved (err.c resets the mask at line 404
before parsing and returns at line 427 leaving the partial result). -/
theorem err_setdebugmask_unknown_token_spec (tid : Nat) (now : String) (list : String)
    (s : ErrState) (pre : List String) (bad : String) (rest : List String)
    (hsplit : strtokList list = pre ++ bad :: rest)
    (hpre : ∀ t ∈ pre, (findCategory t).isSome)
    (hbad : findCategory bad = none) :
    (err_setdebugmask tid now list s).2.1 = 1 ∧
    (err_setdebugmask tid now list s).2.2.err_debugmask =
      pre.foldl (fun m t => m ||| (1 <<< (findCategory t).getD 0)) 0x80000000 := by
  unfold err_setdebugmask
  rw [hsplit]
  exact setdebugmask_go_unknown tid now bad rest hbad pre _ hpre

/-- Witness for C5: parsing "config,bogus". -/
theorem err_setdebugmask_unknown_token_spec_witness :
    (err_setdebugmask 1 "t" "config,bogus" errInit).2.1 = 1 ∧
    (err_setdebugmask 1 "t" "config,bogus" errInit).2.2.err_debugmask =
      (["config"].foldl (fun m t => m ||| (1 <<< (findCategory t).getD 0)) 0x80000000) :=
  err_setdebugmask_unknown_token_spec 1 "t" "config,bogus" errInit ["config"] "bogus" []
    (by decide) (by decide) (by decide)

theorem lookupAssoc_setAssoc_self (l : List (String × FileData)) (p : String)
    (c : FileData) : lookupAssoc (setAssoc l p c) p = some c := by
  induction l with
  | nil => simp [setAssoc, lookupAssoc]
  | cons e rest ih =>
      obtain ⟨q, d⟩ := e
      by_cases h : q = p
      · simp [setAssoc, lookupAssoc, h]
      · simp [setAssoc, lookupAssoc, h, ih]

theorem fsLookup_fsSet_self (fs : FS) (p : String) (c : FileData) :
    fsLookup (fsSet fs p c) p = some c :=
  lookupAssoc_setAssoc_self fs.files p c

theorem fsLookup_append_fresh (fs : FS) (p : String) (l : String) :
    fsLookup (fsAppendList (fsSet fs p []) p [l]) p = some [l] := by
  simp [fsAppendList, fsLookup_fsSet_self]

theorem err_log_level_one_state (tid : Nat) (now : String) (cat : Nat) (msg : String)
    (s : ErrState) (p : String) (htid : tid ∉ s.err_threadlist)
    (hdest : s.err_logdest &&& LOGDEST_LOGFILE ≠ 0) (hf : s.err_file = some p) :
    (err_log tid now 1 cat msg s).2 =
      .ret { s with err_syslog_open := true
                    fs := fsAppendList s.fs p [fileLogLine now tid msg] } := by
  simp [err_log, shouldLog_one, htid, hdest, hf, List.erase_cons_head]

/-- The concrete C6 scenario: a log file holding "OLD", opened for append
(truncate flag clear), file destination enabled, then rotated twice. -/
def sC6a : ErrState :=
  { errInit with fs := { files := [("log", ["OLD"])], badPaths := [] } }

def sC6b : ErrState := (err_setlogfile "log" sC6a).2.2

def sC6c : ErrState := err_setdest LOGDEST_LOGFILE sC6b

def sC6d : ErrState := (err_reopen 1 "t" sC6c).2

def sC6e : ErrState := (err_reopen 1 "t" sC6d).2

/-- C6 counterexample: with the truncate flag clear, setting a valid log
file (mode "a" keeps the prior contents "OLD") and rotating twice leaves a
file that no longer holds "OLD": err.c line 182 reopens with mode "w"
unconditionally, so prior contents are truncated even though the truncate
flag is not set — "truncated iff the truncate flag is set" is false. -/
theorem err_reopen_truncates_despite_clear_flag :
    sC6e.err_truncate = 0 ∧
    fsLookup sC6b.fs "log" = some ["OLD"] ∧
    sC6e.err_file = some "log" ∧
    fsLookup sC6e.fs "log" = some [fileLogLine "t" 1 "Rotated logs\n"] ∧
    fsLookup sC6e.fs "log" ≠ some ["OLD"] := by
  refine ⟨by decide, by decide, by decide, by decide, by decide⟩

/-- C6 amended: whenever the file destination is active and the stored
path can be opened, err_reopen closes the handle and reopens the same path
always in truncating mode ("w"), regardless of the truncate flag: the
handle is open on the same path afterwards and the file retains only the
rotation message — its prior contents are discarded whether or not the
truncate flag is set. -/
theorem err_reopen_always_truncates (tid : Nat) (now : String) (s : ErrState)
    (hdest : s.err_logdest &&& LOGDEST_LOGFILE ≠ 0)
    (hpath : s.err_filename ∉ s.fs.badPaths)
    (htid : tid ∉ s.err_threadlist) :
    (err_reopen tid now s).2.err_file = some s.err_filename ∧
    fsLookup (err_reopen tid now s).2.fs s.err_filename
      = some [fileLogLine now tid "Rotated logs\n"] := by
  have hopen : fopen s.fs s.err_filename "w"
      = (fsSet s.fs s.err_filename [], some s.err_filename) := by
    simp [fopen, hpath]
  have hstate := err_log_level_one_state tid now L_MISC "Rotated logs\n"
      { s with fs := fsSet s.fs s.err_filename [], err_file := some s.err_filename }
      s.err_filename htid hdest rfl
  have key : (err_reopen tid now s).2 =
      { s with fs := fsAppendList (fsSet s.fs s.err_filename []) s.err_filename
                       [fileLogLine now tid "Rotated logs\n"]
               err_file := some s.err_filename
               err_syslog_open := true } := by
    simp only [err_reopen]
    rw [if_neg hdest]
    simp only [hopen]
    rw [show E_LOG = (1:Int) from rfl, hstate]
    rfl
  refine ⟨by rw [key], ?_⟩
  rw [key]
  exact fsLookup_append_fresh s.fs s.err_filename _

/-- Witness for C6: rotating a file that holds "OLD", truncate flag clear. -/
theorem err_reopen_always_truncates_witness :
    (err_reopen 2 "ts" { errInit with
        err_logdest := LOGDEST_LOGFILE
        err_filename := "log"
        err_file := some "log"
        fs := { files := [("log", ["OLD"])], badPaths := [] } }).2.err_file
      = some "log" ∧
    fsLookup (err_reopen 2 "ts" { errInit with
        err_logdest := LOGDEST_LOGFILE
        err_filename := "log"
        err_file := some "log"
        fs := { files := [("log", ["OLD"])], badPaths := [] } }).2.fs "log"
      = some [fileLogLine "ts" 2 "Rotated logs\n"] :=
  err_reopen_always_truncates 2 "ts" { errInit with
      err_logdest := LOGDEST_LOGFILE
      err_filename := "log"
      err_file := some "log"
      fs := { files := [("log", ["OLD"])], badPaths := [] } }
    (by decide) (by decide) (by decide)

end Daapd
